import Mathlib

/-!
Verification of the pensieve repository's client layer against its
natural-language specification.

The Python source is shallowly embedded: every client operation is split into
a pure "build the external call" part and a pure "interpret the outcome of the
external call" part.  External effects (subprocesses, HTTP, the YAML/JSON
parsers, the filesystem) are passed in explicitly as data or as oracle
functions, so each embedded definition is an executable Lean function whose
body mirrors the corresponding Python function line by line.

Conventions:

* Python values decoded from JSON/YAML are modelled by the `Json` inductive
  (numbers as integers; the claims under study exercise no floats).
* A Python computation that can raise is modelled by `PyResult`: `.ok` for
  normal return, `.error` for a raised `Error`/`ClientError` (the payload is
  the exception's argument), and `.crash` for an unhandled Python exception
  (`KeyError`, `TypeError`, `ValueError`, ...).
* String primitives used by the source (`in`, `strip`, `split`, `rsplit`,
  `startswith`, `endswith`, `os.path.join`) are re-implemented over
  `String.data` so that they are structurally recursive and provable.
-/

namespace Pensieve

/-- JSON/YAML values as decoded by Python (`dict`s keep insertion order, so
objects are association lists).  Numbers are modelled as integers; the code
and claims under study exercise no floating-point values. -/
inductive Json where
  | null : Json
  | bool : Bool → Json
  | num : Int → Json
  | str : String → Json
  | arr : List Json → Json
  | obj : List (String × Json) → Json

/-- Outcome of a Python computation: a returned value, a raised
`Error`/`ClientError` carrying its argument, or an unhandled exception
(`KeyError`, `TypeError`, `ValueError`, ...). -/
inductive PyResult (α : Type) where
  | ok : α → PyResult α
  | error : Json → PyResult α
  | crash : PyResult α

/-- Lookup of a key in an association list, mirroring Python `dict`
subscription (parsed dicts have unique keys, so first match suffices). -/
def lookupPairs : List (String × Json) → String → Option Json
  | [], _ => none
  | kv :: rest, key => if kv.1 = key then some kv.2 else lookupPairs rest key

/-- Python subscription `j[key]` with a string key: defined on objects,
a `KeyError`/`TypeError` (modelled as `none`) otherwise. -/
def Json.lookup : Json → String → Option Json
  | .obj kvs, key => lookupPairs kvs key
  | _, _ => none

/-- Python truthiness of a decoded JSON value. -/
def Json.truthy : Json → Bool
  | .null => false
  | .bool b => b
  | .num n => n ≠ 0
  | .str s => s ≠ ""
  | .arr xs => !xs.isEmpty
  | .obj kvs => !kvs.isEmpty

/-- Python `needle in hay` on the underlying character list. -/
def listContains (needle : List Char) : List Char → Bool
  | [] => needle.isPrefixOf []
  | c :: rest => needle.isPrefixOf (c :: rest) || listContains needle rest

/-- Python substring test `needle in hay`. -/
def strContains (hay needle : String) : Bool :=
  listContains needle.data hay.data

/-- Python `s.startswith(pre)`. -/
def strStartsWith (s pre : String) : Bool :=
  pre.data.isPrefixOf s.data

/-- Python `s.endswith(post)`. -/
def strEndsWith (s post : String) : Bool :=
  post.data.reverse.isPrefixOf s.data.reverse

/-- Python `s.strip()` (remove leading and trailing whitespace). -/
def pyStrip (s : String) : String :=
  ⟨((s.data.dropWhile Char.isWhitespace).reverse.dropWhile Char.isWhitespace).reverse⟩

/-- Helper for Python `s.split()`: split a character list at whitespace. -/
def pySplitWsAux : List Char → List Char → List (List Char)
  | [], acc => [acc.reverse]
  | c :: rest, acc =>
    if c.isWhitespace then acc.reverse :: pySplitWsAux rest []
    else pySplitWsAux rest (c :: acc)

/-- Python `s.split()` with no argument: split on whitespace runs, dropping
empty words. -/
def pySplitWhitespace (s : String) : List String :=
  ((pySplitWsAux s.data []).filter (fun w => w ≠ [])).map fun l => ⟨l⟩

/-- Helper for Python `s.split(sep)` with a one-character separator. -/
def pySplitCharAux (sep : Char) : List Char → List (List Char)
  | [] => [[]]
  | c :: rest =>
    match pySplitCharAux sep rest with
    | [] => [[]]
    | g :: gs => if c = sep then [] :: g :: gs else (c :: g) :: gs

/-- Python `s.split(sep)` for a one-character separator `sep`. -/
def pySplitChar (s : String) (sep : Char) : List String :=
  (pySplitCharAux sep s.data).map fun l => ⟨l⟩

/-- Helper for Python `s.rsplit(sep, 1)`: split a character list at the LAST
occurrence of `sep`, or `none` when `sep` does not occur. -/
def rsplitCharAux (sep : Char) : List Char → Option (List Char × List Char)
  | [] => none
  | c :: rest =>
    match rsplitCharAux sep rest with
    | some (a, b) => some (c :: a, b)
    | none => if c = sep then some ([], rest) else none

/-- Python `s.rsplit(sep, 1)` unpacked into a pair; `none` models the
`ValueError` raised when unpacking fails because `sep` does not occur. -/
def rsplitOnce (s : String) (sep : Char) : Option (String × String) :=
  (rsplitCharAux sep s.data).map fun ab => (⟨ab.1⟩, ⟨ab.2⟩)

/-- Python `os.path.join(a, b)` for POSIX paths (the only variant the source
exercises): an absolute second component resets the path, otherwise a `/`
separator is inserted unless one is already present. -/
def osPathJoin (a b : String) : String :=
  if strStartsWith b "/" then b
  else if a = "" || strEndsWith a "/" then a ++ b
  else a ++ "/" ++ b

/-- Escape of a character inside a JSON string literal, as `json.dumps`
renders it (the payloads under study contain no control characters). -/
def jsonEscapeChar (c : Char) : String :=
  if c = '"' then "\\\"" else if c = '\\' then "\\\\" else String.singleton c

/-- Escape of a string for a JSON string literal. -/
def jsonEscape (s : String) : String :=
  String.join (s.data.map jsonEscapeChar)

mutual

/-- Serialization of a value exactly as Python `json.dumps` renders it with
default separators (`", "` and `": "`). -/
def Json.dumps : Json → String
  | .null => "null"
  | .bool true => "true"
  | .bool false => "false"
  | .num n => toString n
  | .str s => "\"" ++ jsonEscape s ++ "\""
  | .arr xs => "[" ++ dumpsArr xs ++ "]"
  | .obj kvs => "\x7b" ++ dumpsObj kvs ++ "\x7d"

/-- Comma-separated rendering of a JSON array body. -/
def dumpsArr : List Json → String
  | [] => ""
  | [x] => Json.dumps x
  | x :: y :: xs => Json.dumps x ++ ", " ++ dumpsArr (y :: xs)

/-- Comma-separated rendering of a JSON object body. -/
def dumpsObj : List (String × Json) → String
  | [] => ""
  | [kv] => "\"" ++ jsonEscape kv.1 ++ "\": " ++ Json.dumps kv.2
  | kv :: kv2 :: kvs =>
    "\"" ++ jsonEscape kv.1 ++ "\": " ++ Json.dumps kv.2 ++ ", " ++ dumpsObj (kv2 :: kvs)

end

/-- Python `repr` of a `bytes` object built from an ASCII string, as it is
interpolated by `str.format` (`b'...'`); accurate for payloads containing no
apostrophe, backslash or non-printable byte, which is the case for every
payload the client produces. -/
def pyBytesRepr (s : String) : String :=
  "b\x27" ++ s ++ "\x27"

/-- Result of a completed subprocess: exit code and captured stdout/stderr
(`subprocess.run` with `stdout=PIPE`; when the source redirects stderr into
stdout, the combined text is in `stdout` and `stderr` is empty). -/
structure ProcResult where
  returncode : Int
  stdout : String
  stderr : String

/-- An external process invocation as the source assembles it: argument
vector, optional working directory, optional text piped to stdin. -/
structure SubprocessCall where
  argv : List String
  cwd : Option String
  input : Option String

/-- Modelled from the spec: `RepositoryMetadata`, the plain record
(name, description, topics) produced by every client's listing operation.
Its definition is imported from `pensieve/clients/abc.py`, which is absent
from the sources at hand; the spec describes it as an immutable value with
`name : string`, `description : optional string` (kept as a raw decoded
value), and `topics : ordered sequence of string`. -/
structure RepositoryMetadata where
  name : String
  description : Json
  topics : List String

/-- Python code-point comparison `a <= b` on strings (used by `sorted`). -/
def charListLe : List Char → List Char → Bool
  | [], _ => true
  | _ :: _, [] => false
  | a :: as, b :: bs =>
    if a.val < b.val then true
    else if b.val < a.val then false
    else charListLe as bs

/-- Python `a <= b` on strings. -/
def strLe (a b : String) : Bool :=
  charListLe a.data b.data

/-- Insertion step of a stable insertion sort under `strLe`. -/
def insertSorted (x : String) : List String → List String
  | [] => [x]
  | y :: ys => if strLe x y then x :: y :: ys else y :: insertSorted x ys

/-- Python `sorted` on a list of strings (lexicographic by code point). -/
def sortedStrings : List String → List String
  | [] => []
  | x :: xs => insertSorted x (sortedStrings xs)

/-- Extraction of a decoded JSON array all of whose elements are strings
(the shape the clients require of `topics`). -/
def asStringList : List Json → Option (List String)
  | [] => some []
  | .str s :: rest => (asStringList rest).map fun t => s :: t
  | _ => none

/-! ## PensieveClient (`pensieve/clients/pensieve.py`) -/

/-- A `PensieveClient` instance: ssh host, store path and agent binary path. -/
structure PensieveClient where
  host : String
  path : String
  agent : String

/-- `PensieveClient.__init__`: prefix the host with `ssh://` when the scheme
is absent, and let the `PENSIEVE_AGENT_COMMAND` environment variable
(modelled as an explicit `Option`) override the configured agent. -/
def PensieveClient.init (host path agent : String) (agentEnvvar : Option String) :
    PensieveClient :=
  { host := if strStartsWith host "ssh://" then host else "ssh://" ++ host
    path := path
    agent := match agentEnvvar with
      | some a => a
      | none => agent }

/-- The request payload `_invoke` builds: `{"command": command, "data": data}`
with `data` defaulting to the empty dict. -/
def invokePayload (command : String) (data : Option Json) : Json :=
  .obj [("command", .str command), ("data", data.getD (.obj []))]

/-- The subprocess call `_invoke` performs (source lines 84–111): the ssh
command line with the connection-timeout option, the space-split extra SSH
options before the `-p <port>` flag, the host split on its last `:` into
server and port, and the remote command `cd <path> && <agent>` wrapped in
`bash -c "..."`; the JSON payload is piped to stdin.  `none` models the
`ValueError` crash when the host contains no `:`.  The connection timeout
and extra SSH options come from the environment and are passed explicitly. -/
def PensieveClient.invokeCall (c : PensieveClient) (timeout sshOptions : String)
    (command : String) (data : Option Json) : Option SubprocessCall :=
  (rsplitOnce c.host ':').map fun sp =>
    { argv := ["ssh", "-o", "ConnectTimeout=" ++ timeout]
        ++ pySplitWhitespace sshOptions
        ++ ["-p", sp.2, sp.1, "bash -c \"" ++ ("cd " ++ c.path ++ " && " ++ c.agent) ++ "\""]
      cwd := none
      input := some (Json.dumps (invokePayload command data)) }

/-- Response handling of `_invoke` (source lines 113–138), given the
completed ssh process, the serialized payload that was sent, and the JSON
parser as an oracle (`parse s = none` models `json.loads` raising
`JSONDecodeError` on `s`). -/
def PensieveClient.invokeResponse (c : PensieveClient) (payloadAsJson : String)
    (proc : ProcResult) (parse : String → Option Json) : PyResult Json :=
  let result := pyStrip proc.stdout
  let resultErr := pyStrip proc.stderr
  if proc.returncode ≠ 0 then
    if strContains result "No such file" then
      .error (.str ("The server has no pensieve \"" ++ c.path ++ "\"."))
    else
      .error (.str ("Connection failed with error: " ++ (result ++ resultErr)))
  else
    match parse result with
    | none =>
      .error (.str ("Problem decoding when communicating JSON over SSH."
        ++ "\nSent: " ++ pyBytesRepr payloadAsJson
        ++ "\nReceived: " ++ result))
    | some response =>
      match response.lookup "error" with
      | none => .crash
      | some err =>
        match err.lookup "code" with
        | none => .crash
        | some code =>
          if code.truthy then
            match err.lookup "msg" with
            | some msg => .error msg
            | none => .crash
          else
            match response.lookup "data" with
            | some d => .ok d
            | none => .crash

/-- The subprocess call `PensieveClient.clone` performs (source lines
156–164): `git clone <host + os.path.join(path, repo_name, "repo.git")>
<repo_name>` with working directory `cwd` and stderr folded into stdout. -/
def PensieveClient.cloneCall (c : PensieveClient) (repoName cwd : String) :
    SubprocessCall :=
  { argv := ["git", "clone",
      c.host ++ osPathJoin (osPathJoin c.path repoName) "repo.git", repoName]
    cwd := some cwd
    input := none }

/-- Outcome handling of `PensieveClient.clone` (source lines 166–169): a
non-zero exit raises `ClientError` with a fixed message naming the
repository; a zero exit returns `None`. -/
def PensieveClient.cloneResult (repoName : String) (proc : ProcResult) :
    PyResult Unit :=
  if proc.returncode ≠ 0 then
    .error (.str ("Could not clone the repository \"" ++ repoName ++ "\" from the server."))
  else
    .ok ()

/-- One entry of `PensieveClient.list`'s loop body (source lines 197–201):
`RepositoryMetadata(name, meta["description"], sorted(meta["topics"]))`,
crashing on a missing key or a non-list `topics` (topics are required to be
strings, the shape the spec's data model prescribes). -/
def reposOfItems : List (String × Json) → PyResult (List RepositoryMetadata)
  | [] => .ok []
  | (name, meta) :: rest =>
    match meta.lookup "description", meta.lookup "topics" with
    | some desc, some (.arr ts) =>
      match asStringList ts with
      | some topics =>
        match reposOfItems rest with
        | .ok repos => .ok (⟨name, desc, sortedStrings topics⟩ :: repos)
        | .error e => .error e
        | .crash => .crash
      | none => .crash
    | _, _ => .crash

/-- `PensieveClient.list` applied to the decoded response data: iterate the
mapping in order, wrapping each entry (`.items()` crashes on a non-dict). -/
def listOfData : Json → PyResult (List RepositoryMetadata)
  | .obj kvs => reposOfItems kvs
  | _ => .crash

/-- The full `PensieveClient.list` pipeline given the completed ssh process
and the JSON parser oracle. -/
def PensieveClient.listOp (c : PensieveClient) (payloadAsJson : String)
    (proc : ProcResult) (parse : String → Option Json) :
    PyResult (List RepositoryMetadata) :=
  match c.invokeResponse payloadAsJson proc parse with
  | .ok d => listOfData d
  | .error e => .error e
  | .crash => .crash

/-! ## GitHubClient (`pensieve/clients/github.py`) -/

/-- A `GitHubClient` instance: authenticated user and API token. -/
structure GitHubClient where
  user : String
  token : String

/-- An HTTP request as the GitHub client assembles one: URL, basic-auth
pair, query parameters, headers, and optional JSON body. -/
structure GhRequest where
  url : String
  auth : String × String
  params : List (String × Json)
  headers : List (String × String)
  jsonBody : Option Json

/-- An HTTP response: status code and decoded JSON body (`result.json()`). -/
structure HttpResponse where
  status : Nat
  json : Json

/-- `_make_error_message` (source lines 17–19):
`json["message"] + " " + json["errors"][0]["message"]`; any missing key,
empty `errors` array, or non-string field is an unhandled Python exception. -/
def makeErrorMessage (j : Json) : PyResult String :=
  match j.lookup "message", j.lookup "errors" with
  | some (.str m), some (.arr (e0 :: _)) =>
    match e0.lookup "message" with
    | some (.str m0) => .ok (m ++ " " ++ m0)
    | _ => .crash
  | _, _ => .crash

/-- The POST request of `_create_new_user_repository` (source lines 80–85). -/
def GitHubClient.userRepoRequest (c : GitHubClient) (repoName : String)
    (isPrivate : Bool) : GhRequest :=
  { url := "https://api.github.com/user/repos"
    auth := (c.user, c.token)
    params := []
    headers := []
    jsonBody := some (.obj [("name", .str repoName), ("private", .bool isPrivate)]) }

/-- The POST request of `_create_new_org_repository` (source lines 89–94). -/
def GitHubClient.orgRepoRequest (c : GitHubClient) (org repoName : String)
    (isPrivate : Bool) : GhRequest :=
  { url := "https://api.github.com/orgs/" ++ org ++ "/repos"
    auth := (c.user, c.token)
    params := []
    headers := []
    jsonBody := some (.obj [("name", .str repoName), ("private", .bool isPrivate)]) }

/-- `GitHubClient.new` (source lines 98–119) with the HTTP layer as an
oracle: split `full_name` on `/` (a count other than exactly one `/` fails
unpacking with a `ValueError` before any request), dispatch on whether the
owner segment equals the authenticated user, and require status 201.  The
second component records the requests actually issued. -/
def GitHubClient.new (c : GitHubClient) (post : GhRequest → HttpResponse)
    (fullName : String) (isPrivate : Bool) : PyResult Unit × List GhRequest :=
  match pySplitChar fullName '/' with
  | [userOrOrg, repoName] =>
    let req :=
      if userOrOrg = c.user then c.userRepoRequest repoName isPrivate
      else c.orgRepoRequest userOrOrg repoName isPrivate
    let resp := post req
    (if resp.status = 201 then .ok ()
      else
        match makeErrorMessage resp.json with
        | .ok m => .error (.str m)
        | .error e => .error e
        | .crash => .crash,
      [req])
  | _ => (.crash, [])

/-- `is_admin` (source lines 133–134): `r["permissions"]["admin"]` used for
its truthiness; missing keys are unhandled exceptions. -/
def isAdminCheck (r : Json) : PyResult Bool :=
  match r.lookup "permissions" with
  | some p =>
    match p.lookup "admin" with
    | some a => .ok a.truthy
    | none => .crash
  | none => .crash

/-- `_extract_repo_info_from_json` (source lines 22–32):
`RepositoryMetadata(name=json["full_name"], description=json["description"],
topics=json["topics"])` with topics a list of strings. -/
def extractRepoInfoFromJson (r : Json) : PyResult RepositoryMetadata :=
  match r.lookup "full_name", r.lookup "description", r.lookup "topics" with
  | some (.str n), some d, some (.arr ts) =>
    match asStringList ts with
    | some topics => .ok ⟨n, d, topics⟩
    | none => .crash
  | _, _, _ => .crash

/-- The page-body comprehension of `GitHubClient.list` (source lines
147–149): keep the entries whose `is_admin` check is truthy, in order. -/
def extractAdminRepos : List Json → PyResult (List RepositoryMetadata)
  | [] => .ok []
  | r :: rest =>
    match isAdminCheck r with
    | .ok true =>
      match extractRepoInfoFromJson r with
      | .ok m =>
        match extractAdminRepos rest with
        | .ok ms => .ok (m :: ms)
        | .error e => .error e
        | .crash => .crash
      | .error e => .error e
      | .crash => .crash
    | .ok false => extractAdminRepos rest
    | .error e => .error e
    | .crash => .crash

/-- The GET request `GitHubClient.list` issues for one page (source lines
138–143): page size 100 and the topics media type. -/
def GitHubClient.listRequest (c : GitHubClient) (page : Nat) : GhRequest :=
  { url := "https://api.github.com/user/repos"
    auth := (c.user, c.token)
    params := [("per_page", .num 100), ("page", .num (page : Int))]
    headers := [("Accept", "application/vnd.github.mercy-preview+json")]
    jsonBody := none }

/-- The pagination loop of `GitHubClient.list` (source lines 136–152) with
the HTTP layer as a page-indexed oracle.  `fuel` bounds the number of
iterations modelled; `none` means the loop did not terminate within `fuel`
requests.  The second component records the requests issued.  Iterating a
truthy non-list body is an unhandled exception. -/
def GitHubClient.listLoop (c : GitHubClient) (http : Nat → Json) :
    Nat → Nat → List RepositoryMetadata → List GhRequest →
    Option (PyResult (List RepositoryMetadata) × List GhRequest)
  | 0, _, _, _ => none
  | fuel + 1, page, acc, reqs =>
    let body := http page
    let reqs := reqs ++ [c.listRequest page]
    if body.truthy then
      match body with
      | .arr items =>
        match extractAdminRepos items with
        | .ok rs => c.listLoop http fuel (page + 1) (acc ++ rs) reqs
        | .error e => some (.error e, reqs)
        | .crash => some (.crash, reqs)
      | _ => some (.crash, reqs)
    else
      some (.ok acc, reqs)

/-- `GitHubClient.list`: start the pagination loop at page 1 with no
accumulated repositories. -/
def GitHubClient.list (c : GitHubClient) (http : Nat → Json) (fuel : Nat) :
    Option (PyResult (List RepositoryMetadata) × List GhRequest) :=
  c.listLoop http fuel 1 [] []

/-! ## Dotfile loading (`pensieve/dotfile.py`) -/

/-- A client instance as `dotfile.load` produces one; parameters are kept as
the decoded YAML values handed to the constructor (the pensieve variant's
host is normalized by `PensieveClient.__init__` and its agent may be
overridden by the environment, exactly as in the source). -/
inductive DotClient where
  | github : Json → Json → DotClient
  | pensieve : Json → Json → Json → DotClient

/-- The message prefix `'Invalid "<store>" definition in dotfile. '`. -/
def invalidStoreMsg (store : String) : String :=
  "Invalid \"" ++ store ++ "\" definition in dotfile. "

/-- The store config after `del store_config['type']`. -/
def dropTypeKey (params : List (String × Json)) : List (String × Json) :=
  params.filter fun kv => kv.1 ≠ "type"

/-- Sorted list of keyword-argument names of a store config (used to check
that `Client(**store_config)` binds every constructor parameter exactly). -/
def storeParamKeys (params : List (String × Json)) : List String :=
  sortedStrings (params.map fun kv => kv.1)

/-- `GitHubClient(**params)`: succeeds exactly when the keyword arguments
are `user` and `token`, each bound to its YAML value. -/
def githubFromKwargs (params : List (String × Json)) : Option DotClient :=
  if storeParamKeys params = ["token", "user"] then
    match lookupPairs params "user", lookupPairs params "token" with
    | some u, some t => some (.github u t)
    | _, _ => none
  else none

/-- `PensieveClient(**params)`: succeeds exactly when the keyword arguments
are `host`, `path` and `agent` and the host is a string (`host.startswith`
raises otherwise, which the loader's `except Exception` turns into a
configuration error); the host is normalized with an `ssh://` prefix and
the agent may be overridden by `PENSIEVE_AGENT_COMMAND`. -/
def pensieveFromKwargs (params : List (String × Json))
    (agentEnvvar : Option String) : Option DotClient :=
  if storeParamKeys params = ["agent", "host", "path"] then
    match lookupPairs params "host", lookupPairs params "path",
        lookupPairs params "agent" with
    | some (.str h), some p, some a =>
      some (.pensieve
        (.str (if strStartsWith h "ssh://" then h else "ssh://" ++ h))
        p
        (match agentEnvvar with
          | some e => .str e
          | none => a))
    | _, _, _ => none
  else none

/-- `_load_client_from_store_config` (source lines 9–52): require a `type`
key, dispatch on it, drop it, and construct the chosen variant from the
remaining parameters; every construction failure becomes the configuration
error `'Missing or unknown parameters.'`.  A non-dict store config or an
unhashable `type` value is an unhandled exception. -/
def loadClientFromStoreConfig (store : String) (storeConfig : Json)
    (agentEnvvar : Option String) : PyResult DotClient :=
  match storeConfig with
  | .obj params =>
    match lookupPairs params "type" with
    | none => .error (.str (invalidStoreMsg store ++ "Missing a \"type\" key."))
    | some t =>
      match t with
      | .str tn =>
        if tn = "github" then
          match githubFromKwargs (dropTypeKey params) with
          | some cli => .ok cli
          | none => .error (.str (invalidStoreMsg store ++ "Missing or unknown parameters."))
        else if tn = "pensieve" then
          match pensieveFromKwargs (dropTypeKey params) agentEnvvar with
          | some cli => .ok cli
          | none => .error (.str (invalidStoreMsg store ++ "Missing or unknown parameters."))
        else
          .error (.str (invalidStoreMsg store ++ "Unknown client type " ++ tn ++ "."))
      | .num n =>
        .error (.str (invalidStoreMsg store ++ "Unknown client type " ++ toString n ++ "."))
      | .bool b =>
        .error (.str (invalidStoreMsg store
          ++ "Unknown client type " ++ (if b then "True" else "False") ++ "."))
      | .null =>
        .error (.str (invalidStoreMsg store ++ "Unknown client type None."))
      | _ => .crash
  | _ => .crash

/-- The loop of `load` (source lines 86–87): build one client per store
entry, in order, keyed by store name; the first failing entry propagates. -/
def loadStores (agentEnvvar : Option String) :
    List (String × Json) → PyResult (List (String × DotClient))
  | [] => .ok []
  | (store, cfg) :: rest =>
    match loadClientFromStoreConfig store cfg agentEnvvar with
    | .ok cli =>
      match loadStores agentEnvvar rest with
      | .ok clis => .ok ((store, cli) :: clis)
      | .error e => .error e
      | .crash => .crash
    | .error e => .error e
    | .crash => .crash

/-- `load` (source lines 55–89) with the YAML parser as an oracle:
`parsed = none` models `yaml.load` raising; a missing `stores` key in a
mapping is the configuration error of the source; subscripting or iterating
a non-mapping is an unhandled exception. -/
def load (parsed : Option Json) (agentEnvvar : Option String) :
    PyResult (List (String × DotClient)) :=
  match parsed with
  | none => .error (.str "Problem decoding the YAML dotfile.")
  | some config =>
    match config with
    | .obj kvs =>
      match lookupPairs kvs "stores" with
      | none => .error (.str "Invalid dotfile. Missing \"stores\" key.")
      | some stores =>
        match stores with
        | .obj entries => loadStores agentEnvvar entries
        | _ => .crash
    | _ => .crash

/-! ## CLI cache update (`pensieve/cli.py`, `_update_cache`) -/

/-- `r._asdict()` of a `RepositoryMetadata`, serialized into the cache:
an object with the record's fields in declaration order. -/
def repoAsDict (r : RepositoryMetadata) : Json :=
  .obj [("name", .str r.name), ("description", r.description),
    ("topics", .arr (r.topics.map Json.str))]

/-- Python `d[k] = v` on an ordered dict modelled as an association list:
replace the value in place when the key is present, append otherwise. -/
def dictSet (kvs : List (String × Json)) (key : String) (v : Json) :
    List (String × Json) :=
  if kvs.any fun kv => kv.1 = key then
    kvs.map fun kv => if kv.1 = key then (key, v) else kv
  else
    kvs ++ [(key, v)]

/-- `_update_cache` (source lines 282–304) on the decoded cache contents:
`existing = none` models the `FileNotFoundError` branch that starts from an
empty mapping; the store's entry is set to the serialized repository list
and the whole mapping is rewritten.  Subscript assignment on a non-dict
cache is an unhandled exception. -/
def updateCache (store : String) (repos : List RepositoryMetadata)
    (existing : Option Json) : PyResult Json :=
  match existing with
  | none => .ok (.obj (dictSet [] store (.arr (repos.map repoAsDict))))
  | some (.obj kvs) => .ok (.obj (dictSet kvs store (.arr (repos.map repoAsDict))))
  | some _ => .crash

/-! ## Helper lemmas about the string primitives -/

theorem listContains_iff (needle l : List Char) :
    listContains needle l = true ↔ needle <:+: l := by
  induction l with
  | nil =>
    simp [listContains, List.isPrefixOf_iff_prefix, List.infix_nil, List.prefix_nil]
  | cons c rest ih =>
    simp [listContains, List.isPrefixOf_iff_prefix, List.infix_cons_iff, ih]

theorem strContains_iff (hay needle : String) :
    strContains hay needle = true ↔ needle.data <:+: hay.data :=
  listContains_iff needle.data hay.data

theorem strContains_refl (m : String) : strContains m m = true :=
  (strContains_iff m m).mpr List.infix_rfl

theorem infix_append_left_of (x : List Char) {l r : List Char} (h : l <:+: r) :
    l <:+: x ++ r := by
  obtain ⟨s, t, rfl⟩ := h
  exact ⟨x ++ s, t, by simp⟩

theorem infix_append_right_of (y : List Char) {l r : List Char} (h : l <:+: r) :
    l <:+: r ++ y := by
  obtain ⟨s, t, rfl⟩ := h
  exact ⟨s, t ++ y, by simp⟩

theorem strContains_append_left (x : String) {s m : String}
    (h : strContains s m = true) : strContains (x ++ s) m = true := by
  rw [strContains_iff] at h ⊢
  rw [String.data_append]
  exact infix_append_left_of x.data h

theorem strContains_append_right (y : String) {s m : String}
    (h : strContains s m = true) : strContains (s ++ y) m = true := by
  rw [strContains_iff] at h ⊢
  rw [String.data_append]
  exact infix_append_right_of y.data h

theorem strContains_single_not {s : String} {c : Char}
    (h : strContains s ⟨[c]⟩ = false) : c ∉ s.data := by
  intro hc
  obtain ⟨l1, l2, heq⟩ := List.append_of_mem hc
  rw [← Bool.not_eq_true, strContains_iff] at h
  exact h ⟨l1, l2, by rw [heq]; simp⟩

theorem rsplitCharAux_none (sep : Char) (l : List Char) (h : sep ∉ l) :
    rsplitCharAux sep l = none := by
  induction l with
  | nil => rfl
  | cons c rest ih =>
    simp only [List.mem_cons, not_or] at h
    have hc : ¬c = sep := fun hh => h.1 hh.symm
    simp [rsplitCharAux, ih h.2, hc]

theorem rsplitCharAux_last (sep : Char) (s t : List Char) (h : sep ∉ t) :
    rsplitCharAux sep (s ++ sep :: t) = some (s, t) := by
  induction s with
  | nil => simp [rsplitCharAux, rsplitCharAux_none sep t h]
  | cons c rest ih => simp [rsplitCharAux, ih]

theorem rsplitOnce_last (s t : String) (h : strContains t ":" = false) :
    rsplitOnce (s ++ ":" ++ t) ':' = some (s, t) := by
  have hmem : ':' ∉ t.data := strContains_single_not h
  have hdata : (s ++ ":" ++ t).data = s.data ++ ':' :: t.data := by
    simp [String.data_append]
  unfold rsplitOnce
  rw [hdata, rsplitCharAux_last ':' s.data t.data hmem]
  rfl

theorem data_ne_nil {s : String} (h : s ≠ "") : s.data ≠ [] := by
  intro hd
  exact h (String.ext hd)

theorem isPrefixOf_single_append (c : Char) (l m : List Char) (h : l ≠ []) :
    [c].isPrefixOf (l ++ m) = [c].isPrefixOf l := by
  cases l with
  | nil => exact absurd rfl h
  | cons x xs => simp [List.isPrefixOf]

theorem strEndsWith_append (a b : String) (hb : b ≠ "") (post : Char) :
    strEndsWith (a ++ b) ⟨[post]⟩ = strEndsWith b ⟨[post]⟩ := by
  unfold strEndsWith
  rw [String.data_append, List.reverse_append]
  exact isPrefixOf_single_append post b.data.reverse a.data.reverse
    (by simp only [ne_eq, List.reverse_eq_nil_iff]; exact data_ne_nil hb)

theorem append_ne_empty_right (a b : String) (hb : b ≠ "") : a ++ b ≠ "" := by
  intro h
  have h2 : a.data ++ b.data = [] := by
    have := congrArg String.data h
    rwa [String.data_append] at this
  exact data_ne_nil hb (List.append_eq_nil.mp h2).2

theorem osPathJoin_normal (a b : String) (hbs : strStartsWith b "/" = false)
    (ha : a ≠ "") (hae : strEndsWith a "/" = false) :
    osPathJoin a b = a ++ "/" ++ b := by
  simp [osPathJoin, hbs, ha, hae]

/-! ## Claims C1–C3: PensieveClient clone and protocol error handling -/

/-- C1 (amended): for every repository name and destination directory,
`PensieveClient.clone` runs `git clone <host><path>/<name>/repo.git <name>`
as a subprocess with working directory set to the destination directory and
nothing piped to stdin; if the git subprocess exits non-zero it raises a
clone error whose message names the repository that could not be cloned (the
captured combined output is NOT included in the message), and if the
subprocess exits zero it returns without error.  The path-shape hypotheses
restrict to the usual store paths, for which `os.path.join` produces exactly
the `<path>/<name>/repo.git` form. -/
theorem claim_C1 (c : PensieveClient) (repoName cwd : String) (proc : ProcResult)
    (h1 : strStartsWith repoName "/" = false)
    (h2 : strEndsWith repoName "/" = false)
    (h3 : repoName ≠ "")
    (h4 : c.path ≠ "")
    (h5 : strEndsWith c.path "/" = false) :
    (c.cloneCall repoName cwd).argv
      = ["git", "clone", c.host ++ (c.path ++ "/" ++ repoName ++ "/" ++ "repo.git"), repoName]
    ∧ (c.cloneCall repoName cwd).cwd = some cwd
    ∧ (c.cloneCall repoName cwd).input = none
    ∧ (proc.returncode ≠ 0 →
        PensieveClient.cloneResult repoName proc
          = .error (.str ("Could not clone the repository \"" ++ repoName ++ "\" from the server."))
        ∧ strContains ("Could not clone the repository \"" ++ repoName ++ "\" from the server.")
            repoName = true)
    ∧ (proc.returncode = 0 → PensieveClient.cloneResult repoName proc = .ok ()) := by
  have step1 : osPathJoin c.path repoName = c.path ++ "/" ++ repoName :=
    osPathJoin_normal c.path repoName h1 h4 h5
  have hne : c.path ++ "/" ++ repoName ≠ "" := append_ne_empty_right _ _ h3
  have hend : strEndsWith (c.path ++ "/" ++ repoName) "/" = false :=
    (strEndsWith_append (c.path ++ "/") repoName h3 '/').trans h2
  have step2 : osPathJoin (c.path ++ "/" ++ repoName) "repo.git"
      = (c.path ++ "/" ++ repoName) ++ "/" ++ "repo.git" :=
    osPathJoin_normal _ _ (by decide) hne hend
  refine ⟨?_, rfl, rfl, ?_, ?_⟩
  · simp only [PensieveClient.cloneCall, step1, step2]
  · intro hrc
    refine ⟨by simp [PensieveClient.cloneResult, hrc], ?_⟩
    exact strContains_append_right _ (strContains_append_left _ (strContains_refl repoName))
  · intro hrc
    simp [PensieveClient.cloneResult, hrc]

/-- C1 witness: the theorem applied at a concrete client, repository and
failing process. -/
theorem claim_C1_witness :
    (PensieveClient.cloneCall ⟨"ssh://u@h:22", "/store", "ag"⟩ "repo" "/tmp").argv
      = ["git", "clone", "ssh://u@h:22/store/repo/repo.git", "repo"]
    ∧ PensieveClient.cloneResult "repo" ⟨1, "boom", ""⟩
      = .error (.str "Could not clone the repository \"repo\" from the server.") := by
  have h := claim_C1 ⟨"ssh://u@h:22", "/store", "ag"⟩ "repo" "/tmp" ⟨1, "boom", ""⟩
    (by decide) (by decide) (by decide) (by decide) (by decide)
  exact ⟨h.1.trans (by rfl), (h.2.2.2.1 (by decide)).1.trans (by rfl)⟩

/-- C1 counterexample: at a failing clone the raised message is the fixed
string naming the repository; the captured combined output (which the source
collects into stdout and then discards) is not part of the message, contrary
to the claim. -/
theorem claim_C1_counterexample :
    PensieveClient.cloneResult "foo" ⟨1, "fatal: repository not found", ""⟩
      = .error (.str "Could not clone the repository \"foo\" from the server.")
    ∧ strContains "Could not clone the repository \"foo\" from the server."
        "fatal: repository not found" = false := by
  exact ⟨rfl, by decide⟩

/-- C2 (amended): for every protocol invocation whose ssh subprocess exits
non-zero, if the captured (stripped) standard output contains the substring
"No such file", a connection error is raised whose message is
`The server has no pensieve "<path>".` — in particular the message contains
the configured path; otherwise a generic connection-failed error is raised
whose message includes the combined stdout and stderr of the subprocess. -/
theorem claim_C2 (c : PensieveClient) (payload : String) (proc : ProcResult)
    (parse : String → Option Json) (hrc : proc.returncode ≠ 0) :
    (strContains (pyStrip proc.stdout) "No such file" = true →
      c.invokeResponse payload proc parse
        = .error (.str ("The server has no pensieve \"" ++ c.path ++ "\"."))
      ∧ strContains ("The server has no pensieve \"" ++ c.path ++ "\".") c.path = true)
    ∧ (strContains (pyStrip proc.stdout) "No such file" = false →
      c.invokeResponse payload proc parse
        = .error (.str ("Connection failed with error: "
            ++ (pyStrip proc.stdout ++ pyStrip proc.stderr)))) := by
  constructor
  · intro hns
    refine ⟨by simp [PensieveClient.invokeResponse, hrc, hns], ?_⟩
    exact strContains_append_right _ (strContains_append_left _ (strContains_refl c.path))
  · intro hns
    simp [PensieveClient.invokeResponse, hrc, hns]

/-- C2 witness: the theorem applied at a concrete failing transport whose
stdout reports a missing path. -/
theorem claim_C2_witness :
    PensieveClient.invokeResponse ⟨"ssh://u@h:22", "/store", "ag"⟩ "P"
        ⟨255, "  bash: No such file or directory\n", ""⟩ (fun _ => none)
      = .error (.str "The server has no pensieve \"/store\".")
    ∧ strContains "The server has no pensieve \"/store\"." "/store" = true := by
  have h := (claim_C2 ⟨"ssh://u@h:22", "/store", "ag"⟩ "P"
    ⟨255, "  bash: No such file or directory\n", ""⟩ (fun _ => none)
    (by decide)).1 (by decide)
  exact ⟨h.1.trans (by rfl), h.2⟩

/-- C2 counterexample: at a concrete failing invocation whose output reports
a missing path, the raised message is `The server has no pensieve "/p".`,
not the claimed `The server has no pensieve store at `/p`.`. -/
theorem claim_C2_counterexample :
    PensieveClient.invokeResponse ⟨"ssh://u@h:22", "/p", "ag"⟩ "P"
        ⟨1, "bash: No such file or directory", ""⟩ (fun _ => none)
      = .error (.str "The server has no pensieve \"/p\".")
    ∧ "The server has no pensieve \"/p\"."
        ≠ "The server has no pensieve store at `/p`." := by
  exact ⟨rfl, by decide⟩

/-- C3: for every protocol invocation whose ssh subprocess exits zero: if the
captured output is not valid JSON, a decode error is raised whose message
includes both the payload that was sent and the raw text that was received;
if the output is valid JSON and `response.error.code` is truthy, an error is
raised carrying exactly `response.error.msg` as its message; otherwise the
invocation succeeds and returns `response.data`. -/
theorem claim_C3 (c : PensieveClient) (payload : String) (proc : ProcResult)
    (parse : String → Option Json) (hrc : proc.returncode = 0) :
    (parse (pyStrip proc.stdout) = none →
      c.invokeResponse payload proc parse
        = .error (.str ("Problem decoding when communicating JSON over SSH."
            ++ "\nSent: " ++ pyBytesRepr payload
            ++ "\nReceived: " ++ pyStrip proc.stdout))
      ∧ strContains ("Problem decoding when communicating JSON over SSH."
            ++ "\nSent: " ++ pyBytesRepr payload
            ++ "\nReceived: " ++ pyStrip proc.stdout) payload = true
      ∧ strContains ("Problem decoding when communicating JSON over SSH."
            ++ "\nSent: " ++ pyBytesRepr payload
            ++ "\nReceived: " ++ pyStrip proc.stdout) (pyStrip proc.stdout) = true)
    ∧ (∀ response err code msg,
        parse (pyStrip proc.stdout) = some response →
        response.lookup "error" = some err →
        err.lookup "code" = some code →
        code.truthy = true →
        err.lookup "msg" = some msg →
        c.invokeResponse payload proc parse = .error msg)
    ∧ (∀ response err code d,
        parse (pyStrip proc.stdout) = some response →
        response.lookup "error" = some err →
        err.lookup "code" = some code →
        code.truthy = false →
        response.lookup "data" = some d →
        c.invokeResponse payload proc parse = .ok d) := by
  refine ⟨?_, ?_, ?_⟩
  · intro hparse
    refine ⟨by simp [PensieveClient.invokeResponse, hrc, hparse], ?_, ?_⟩
    · show strContains (((("Problem decoding when communicating JSON over SSH." ++ "\nSent: ")
        ++ (("b\x27" ++ payload) ++ "\x27")) ++ "\nReceived: ") ++ pyStrip proc.stdout)
        payload = true
      exact strContains_append_right _ (strContains_append_right _
        (strContains_append_left _ (strContains_append_right _
          (strContains_append_left _ (strContains_refl payload)))))
    · exact strContains_append_left _ (strContains_refl (pyStrip proc.stdout))
  · intro response err code msg hparse herr hcode htr hmsg
    simp [PensieveClient.invokeResponse, hrc, hparse, herr, hcode, htr, hmsg]
  · intro response err code d hparse herr hcode htr hd
    simp [PensieveClient.invokeResponse, hrc, hparse, herr, hcode, htr, hd]

/-- C3 witness: the theorem applied at concrete transports exercising all
three zero-exit branches. -/
theorem claim_C3_witness :
    PensieveClient.invokeResponse ⟨"ssh://u@h:22", "/s", "ag"⟩ "PAY"
        ⟨0, "oops", ""⟩ (fun _ => none)
      = .error (.str "Problem decoding when communicating JSON over SSH.\nSent: b\x27PAY\x27\nReceived: oops")
    ∧ PensieveClient.invokeResponse ⟨"ssh://u@h:22", "/s", "ag"⟩ "PAY"
        ⟨0, "J", ""⟩ (fun _ => some (.obj [("error", .obj [("code", .num 1), ("msg", .str "agent says no")]), ("data", .null)]))
      = .error (.str "agent says no")
    ∧ PensieveClient.invokeResponse ⟨"ssh://u@h:22", "/s", "ag"⟩ "PAY"
        ⟨0, "J", ""⟩ (fun _ => some (.obj [("error", .obj [("code", .num 0), ("msg", .str "")]), ("data", .str "DATA")]))
      = .ok (.str "DATA") := by
  refine ⟨?_, ?_, ?_⟩
  · exact ((claim_C3 ⟨"ssh://u@h:22", "/s", "ag"⟩ "PAY" ⟨0, "oops", ""⟩ (fun _ => none)
      rfl).1 rfl).1.trans (by rfl)
  · exact (claim_C3 ⟨"ssh://u@h:22", "/s", "ag"⟩ "PAY" ⟨0, "J", ""⟩ _ rfl).2.1
      (.obj [("error", .obj [("code", .num 1), ("msg", .str "agent says no")]), ("data", .null)])
      (.obj [("code", .num 1), ("msg", .str "agent says no")]) (.num 1) (.str "agent says no")
      rfl (by rfl) (by rfl) (by decide) (by rfl)
  · exact (claim_C3 ⟨"ssh://u@h:22", "/s", "ag"⟩ "PAY" ⟨0, "J", ""⟩ _ rfl).2.2
      (.obj [("error", .obj [("code", .num 0), ("msg", .str "")]), ("data", .str "DATA")])
      (.obj [("code", .num 0), ("msg", .str "")]) (.num 0) (.str "DATA")
      rfl (by rfl) (by rfl) (by decide) (by rfl)

/-! ## Claims C4–C5: PensieveClient list wrapping and request construction -/

/-- Well-formedness of one entry of the `list` response data: it has a
description and a topics list of strings (the shape the claim presupposes). -/
def entryWF (e : String × Json) : Bool :=
  match e.2.lookup "description", e.2.lookup "topics" with
  | some _, some (.arr ts) => (asStringList ts).isSome
  | _, _ => false

/-- The record the claim predicts for one entry of the response data: the
entry's name and description, with its topics sorted lexicographically. -/
def entryRepo (e : String × Json) : RepositoryMetadata :=
  { name := e.1
    description := (e.2.lookup "description").getD .null
    topics := sortedStrings (match e.2.lookup "topics" with
      | some (.arr ts) => (asStringList ts).getD []
      | _ => []) }

theorem entryWF_elim {e : String × Json} (he : entryWF e = true) :
    ∃ desc ts topics, e.2.lookup "description" = some desc
      ∧ e.2.lookup "topics" = some (.arr ts) ∧ asStringList ts = some topics := by
  unfold entryWF at he
  split at he
  next desc ts hdesc htop =>
    obtain ⟨topics, hts⟩ := Option.isSome_iff_exists.mp he
    exact ⟨desc, ts, topics, hdesc, htop, hts⟩
  next => simp at he

/-- C4: every successful `PensieveClient.list()` call produces exactly one
`RepositoryMetadata` per entry of the response's data mapping, in the
mapping's iteration order, with each record's topics being that entry's
topics sorted lexicographically. -/
theorem claim_C4 (kvs : List (String × Json))
    (h : ∀ e ∈ kvs, entryWF e = true) :
    listOfData (.obj kvs) = .ok (kvs.map entryRepo) := by
  induction kvs with
  | nil => rfl
  | cons e rest ih =>
    obtain ⟨desc, ts, topics, hdesc, htop, hts⟩ := entryWF_elim (h e (by simp))
    have hrest : reposOfItems rest = .ok (rest.map entryRepo) :=
      ih fun x hx => h x (by simp [hx])
    obtain ⟨name, meta⟩ := e
    simp only [listOfData]
    simp [reposOfItems, hdesc, htop, hts, hrest, entryRepo]

/-- C4 witness: the claim's concrete instance — a response with error code 0
and data `{"foo": {"description": "d", "topics": ["b", "a"]}}` yields exactly
one record whose topics are `["a", "b"]`. -/
theorem claim_C4_witness :
    PensieveClient.listOp ⟨"ssh://u@h:22", "/s", "ag"⟩ "PAY" ⟨0, "J", ""⟩
        (fun _ => some (.obj [("error", .obj [("code", .num 0), ("msg", .str "")]),
          ("data", .obj [("foo", .obj [("description", .str "d"),
            ("topics", .arr [.str "b", .str "a"])])])]))
      = .ok [⟨"foo", .str "d", ["a", "b"]⟩] := by
  have h := claim_C4
    [("foo", .obj [("description", .str "d"), ("topics", .arr [.str "b", .str "a"])])]
    (by decide)
  show listOfData (.obj [("foo", .obj [("description", .str "d"),
    ("topics", .arr [.str "b", .str "a"])])]) = _
  exact h.trans (by rfl)

/-- C5: for every command name and data dictionary (defaulting to empty),
`_invoke` builds the payload `{"command": <name>, "data": <dict>}` serialized
to JSON and piped to the ssh process's stdin, splits the host into server and
port on the last `:`, inserts the space-split extra SSH options before the
`-p <port>` flag, and executes `cd <path> && <agent>` through `bash -c`. -/
theorem claim_C5 (c : PensieveClient) (timeout sshOptions command : String)
    (data : Option Json) (server port : String)
    (hhost : c.host = server ++ ":" ++ port)
    (hport : strContains port ":" = false) :
    c.invokeCall timeout sshOptions command data
      = some ⟨["ssh", "-o", "ConnectTimeout=" ++ timeout]
            ++ pySplitWhitespace sshOptions
            ++ ["-p", port, server,
              "bash -c \"" ++ ("cd " ++ c.path ++ " && " ++ c.agent) ++ "\""],
          none,
          some (Json.dumps (.obj [("command", .str command),
            ("data", data.getD (.obj []))]))⟩ := by
  unfold PensieveClient.invokeCall invokePayload
  rw [hhost, rsplitOnce_last server port hport]
  rfl

/-- C5 witness: the theorem applied to a concrete client built by
`PensieveClient.__init__` (note the extra SSH options land between the
timeout option and the `-p` flag, and the serialized payload is piped in). -/
theorem claim_C5_witness :
    PensieveClient.invokeCall (PensieveClient.init "u@h:2222" "/store" "agent" none)
        "5" "-o LogLevel=ERROR" "list" none
      = some ⟨["ssh", "-o", "ConnectTimeout=5", "-o", "LogLevel=ERROR",
            "-p", "2222", "ssh://u@h", "bash -c \"cd /store && agent\""],
          none,
          some "\x7b\"command\": \"list\", \"data\": \x7b\x7d\x7d"⟩ := by
  have h := claim_C5 (PensieveClient.init "u@h:2222" "/store" "agent" none)
    "5" "-o LogLevel=ERROR" "list" none "ssh://u@h" "2222" (by rfl) (by decide)
  exact h.trans (by rfl)

/-! ## Claims C6, C7, C9: GitHubClient pagination and repository creation -/

/-- Well-formedness of one repository item of a GitHub list page: its
`permissions.admin` field exists, and when it is truthy the item carries the
metadata fields `_extract_repo_info_from_json` reads. -/
def ghItemWF (r : Json) : Bool :=
  match isAdminCheck r with
  | .ok true =>
    match extractRepoInfoFromJson r with
    | .ok _ => true
    | _ => false
  | .ok false => true
  | _ => false

/-- The record the admin-filtered comprehension keeps for one item: `some`
metadata when the caller administers the repository, `none` otherwise. -/
def extractIfAdmin (r : Json) : Option RepositoryMetadata :=
  match isAdminCheck r with
  | .ok true =>
    match extractRepoInfoFromJson r with
    | .ok m => some m
    | _ => none
  | _ => none

theorem extractAdminRepos_wf (items : List Json)
    (h : ∀ r ∈ items, ghItemWF r = true) :
    extractAdminRepos items = .ok (items.filterMap extractIfAdmin) := by
  induction items with
  | nil => rfl
  | cons r rest ih =>
    have hr := h r (by simp)
    have hrest := ih fun x hx => h x (by simp [hx])
    unfold ghItemWF at hr
    cases hadm : isAdminCheck r with
    | ok b =>
      cases b with
      | true =>
        rw [hadm] at hr
        cases hext : extractRepoInfoFromJson r with
        | ok m => simp [extractAdminRepos, extractIfAdmin, hadm, hext, hrest]
        | error e => rw [hext] at hr; simp at hr
        | crash => rw [hext] at hr; simp at hr
      | false => simp [extractAdminRepos, extractIfAdmin, hadm, hrest]
    | error e => rw [hadm] at hr; simp at hr
    | crash => rw [hadm] at hr; simp at hr

/-- C6 (amended): `GitHubClient.list` requests pages of size 100 starting at
page 1 and stops at the first page that returns an empty list; given a full
page of 100 items followed by an empty page, it issues exactly two requests
and returns one `RepositoryMetadata` per item the caller administers
(exactly 100 records only when all 100 items grant admin permission),
preserving the API's order. -/
theorem claim_C6 (c : GitHubClient) (http : Nat → Json) (items : List Json)
    (h100 : items.length = 100)
    (hwf : ∀ r ∈ items, ghItemWF r = true)
    (h1 : http 1 = .arr items) (h2 : http 2 = .arr []) :
    c.list http 2
      = some (.ok (items.filterMap extractIfAdmin),
          [c.listRequest 1, c.listRequest 2])
    ∧ (c.listRequest 1).params = [("per_page", .num 100), ("page", .num 1)]
    ∧ (c.listRequest 2).params = [("per_page", .num 100), ("page", .num 2)] := by
  have htruthy : (Json.arr items).truthy = true := by
    cases items with
    | nil => simp at h100
    | cons a l => rfl
  refine ⟨?_, rfl, rfl⟩
  unfold GitHubClient.list GitHubClient.listLoop
  rw [h1]
  simp only [htruthy, if_true, extractAdminRepos_wf items hwf]
  unfold GitHubClient.listLoop
  rw [h2]
  simp [Json.truthy]

/-- One hundred identical admin-permission repository items. -/
def ghWitnessItems : List Json :=
  List.replicate 100 (.obj [("full_name", .str "u/r"), ("description", .null),
    ("topics", .arr []), ("permissions", .obj [("admin", .bool true)])])

/-- C6 witness: the theorem applied to a fake HTTP layer returning a full
page of 100 admin items and then an empty page: two requests, 100 records. -/
theorem claim_C6_witness :
    GitHubClient.list ⟨"u", "t"⟩
        (fun p => if p = 1 then .arr ghWitnessItems else .arr []) 2
      = some (.ok (List.replicate 100 ⟨"u/r", .null, []⟩),
          [GitHubClient.listRequest ⟨"u", "t"⟩ 1,
            GitHubClient.listRequest ⟨"u", "t"⟩ 2]) := by
  have h := (claim_C6 ⟨"u", "t"⟩
    (fun p => if p = 1 then .arr ghWitnessItems else .arr []) ghWitnessItems
    (by simp [ghWitnessItems])
    (fun r hr => by rw [List.eq_of_mem_replicate hr]; rfl)
    rfl rfl).1
  refine h.trans ?_
  have h2 : ghWitnessItems.filterMap extractIfAdmin
      = List.replicate 100 ⟨"u/r", .null, []⟩ := rfl
  rw [h2]

/-- The length of the repository list inside a loop outcome (`none` when the
pagination did not end in a normal return). -/
def resultListLength : PyResult (List RepositoryMetadata) → Option Nat
  | .ok l => some l.length
  | _ => none

/-- A full page of 100 items of which the first lacks admin permission. -/
def ghCexItems : List Json :=
  (.obj [("full_name", .str "u/r"), ("description", .null), ("topics", .arr []),
    ("permissions", .obj [("admin", .bool false)])])
  :: List.replicate 99 (.obj [("full_name", .str "u/r"), ("description", .null),
    ("topics", .arr []), ("permissions", .obj [("admin", .bool true)])])

/-- C6 counterexample: a full page of 100 items followed by an empty page on
which `list()` issues exactly two requests but returns 99 records, not 100:
the non-admin item is filtered out, contradicting the claim as stated. -/
theorem claim_C6_counterexample :
    (GitHubClient.list ⟨"u", "t"⟩
        (fun p => if p = 1 then .arr ghCexItems else .arr []) 2).map
        (fun pr => (resultListLength pr.1, pr.2.length))
      = some (some 99, 2)
    ∧ ghCexItems.length = 100 := by
  exact ⟨by decide, by decide⟩

/-- C9: `GitHubClient.new` requires its `full_name` argument to contain
exactly one `/`: with zero or with two or more `/` characters the unpacking
of the split fails with an unhandled exception (`.crash`, not a client
error) before any HTTP request is made (no request is recorded). -/
theorem pySplitCharAux_length (sep : Char) (l : List Char) :
    (pySplitCharAux sep l).length = l.count sep + 1 := by
  induction l with
  | nil => rfl
  | cons c rest ih =>
    cases hs : pySplitCharAux sep rest with
    | nil => rw [hs] at ih; simp at ih
    | cons g gs =>
      rw [hs] at ih
      simp only [List.length_cons] at ih
      by_cases hc : c = sep
      · simp only [pySplitCharAux, hs, hc, if_true]
        simp [List.count_cons]
        omega
      · have hc2 : ¬sep = c := fun hh => hc hh.symm
        simp only [pySplitCharAux, hs, hc, if_false]
        simp [List.count_cons, hc2]
        omega

theorem claim_C9 (c : GitHubClient) (post : GhRequest → HttpResponse)
    (fullName : String) (isPrivate : Bool)
    (h : fullName.data.count '/' ≠ 1) :
    c.new post fullName isPrivate = (.crash, []) := by
  have hlen : (pySplitChar fullName '/').length ≠ 2 := by
    unfold pySplitChar
    rw [List.length_map, pySplitCharAux_length]
    omega
  unfold GitHubClient.new
  rcases hsp : pySplitChar fullName '/' with _ | ⟨a, _ | ⟨b, _ | ⟨d, t3⟩⟩⟩
  · rfl
  · rfl
  · rw [hsp] at hlen; simp at hlen
  · rfl

/-- C9 witness: the theorem applied at a slash-free name and at a name with
two slashes. -/
theorem claim_C9_witness :
    GitHubClient.new ⟨"u", "t"⟩ (fun _ => ⟨201, .null⟩) "abc" true = (.crash, [])
    ∧ GitHubClient.new ⟨"u", "t"⟩ (fun _ => ⟨201, .null⟩) "a/b/c" true = (.crash, []) :=
  ⟨claim_C9 ⟨"u", "t"⟩ (fun _ => ⟨201, .null⟩) "abc" true (by decide),
    claim_C9 ⟨"u", "t"⟩ (fun _ => ⟨201, .null⟩) "a/b/c" true (by decide)⟩

/-- C7: for every `full_name` of the form `<owner>/<repo>` and private flag,
`GitHubClient.new` POSTs a body `{name, private}` to the user-repos creation
endpoint when the owner segment equals the authenticated user and to that
owner's org-repos creation endpoint otherwise; on a response whose status is
not 201 it raises an API error whose message is the payload's top-level
`message` field concatenated with a space with the message of the first
entry of its `errors` array; on status 201 it returns without error. -/
theorem claim_C7 (c : GitHubClient) (post : GhRequest → HttpResponse)
    (fullName owner repoName : String) (isPrivate : Bool)
    (hsplit : pySplitChar fullName '/' = [owner, repoName]) :
    (owner = c.user →
      (c.new post fullName isPrivate).2 = [c.userRepoRequest repoName isPrivate])
    ∧ (owner ≠ c.user →
      (c.new post fullName isPrivate).2 = [c.orgRepoRequest owner repoName isPrivate])
    ∧ (c.userRepoRequest repoName isPrivate).url = "https://api.github.com/user/repos"
    ∧ (c.userRepoRequest repoName isPrivate).jsonBody
        = some (.obj [("name", .str repoName), ("private", .bool isPrivate)])
    ∧ (c.orgRepoRequest owner repoName isPrivate).url
        = "https://api.github.com/orgs/" ++ owner ++ "/repos"
    ∧ (c.orgRepoRequest owner repoName isPrivate).jsonBody
        = some (.obj [("name", .str repoName), ("private", .bool isPrivate)])
    ∧ ((post (if owner = c.user then c.userRepoRequest repoName isPrivate
          else c.orgRepoRequest owner repoName isPrivate)).status = 201 →
        (c.new post fullName isPrivate).1 = .ok ())
    ∧ (∀ m m0 e0 errRest,
        (post (if owner = c.user then c.userRepoRequest repoName isPrivate
          else c.orgRepoRequest owner repoName isPrivate)).status ≠ 201 →
        (post (if owner = c.user then c.userRepoRequest repoName isPrivate
          else c.orgRepoRequest owner repoName isPrivate)).json.lookup "message"
          = some (.str m) →
        (post (if owner = c.user then c.userRepoRequest repoName isPrivate
          else c.orgRepoRequest owner repoName isPrivate)).json.lookup "errors"
          = some (.arr (e0 :: errRest)) →
        e0.lookup "message" = some (.str m0) →
        (c.new post fullName isPrivate).1 = .error (.str (m ++ " " ++ m0))) := by
  refine ⟨?_, ?_, rfl, rfl, rfl, rfl, ?_, ?_⟩
  · intro h
    simp [GitHubClient.new, hsplit, h]
  · intro h
    simp [GitHubClient.new, hsplit, h]
  · intro hst
    simp [GitHubClient.new, hsplit, hst]
  · intro m m0 e0 errRest hst hm he he0
    simp [GitHubClient.new, hsplit, hst, makeErrorMessage, hm, he, he0]

/-- C7 witness: the theorem applied at the user endpoint, the organization
endpoint, and a failing creation whose error payload is assembled into the
message. -/
theorem claim_C7_witness :
    (GitHubClient.new ⟨"user", "tok"⟩ (fun _ => ⟨201, .null⟩) "user/repo" true).2
      = [GitHubClient.userRepoRequest ⟨"user", "tok"⟩ "repo" true]
    ∧ (GitHubClient.new ⟨"user", "tok"⟩ (fun _ => ⟨201, .null⟩) "org/repo" false).2
      = [GitHubClient.orgRepoRequest ⟨"user", "tok"⟩ "org" "repo" false]
    ∧ (GitHubClient.new ⟨"user", "tok"⟩
        (fun _ => ⟨422, .obj [("message", .str "Validation Failed"),
          ("errors", .arr [.obj [("message", .str "name already exists")]])]⟩)
        "user/repo" true).1
      = .error (.str "Validation Failed name already exists") := by
  refine ⟨?_, ?_, ?_⟩
  · exact (claim_C7 ⟨"user", "tok"⟩ (fun _ => ⟨201, .null⟩) "user/repo" "user" "repo"
      true (by decide)).1 rfl
  · exact (claim_C7 ⟨"user", "tok"⟩ (fun _ => ⟨201, .null⟩) "org/repo" "org" "repo"
      false (by decide)).2.1 (by decide)
  · exact (claim_C7 ⟨"user", "tok"⟩
      (fun _ => ⟨422, .obj [("message", .str "Validation Failed"),
        ("errors", .arr [.obj [("message", .str "name already exists")]])]⟩)
      "user/repo" "user" "repo" true (by decide)).2.2.2.2.2.2.2
      "Validation Failed" "name already exists"
      (.obj [("message", .str "name already exists")]) []
      (by decide) (by rfl) (by rfl) (by rfl)

/-! ## Claim C8: dotfile loading -/

/-- C8: for every valid dotfile configuration, `load` produces exactly one
client per entry of the stores mapping, keyed by store name, with the chosen
variant's constructor receiving exactly the YAML values (the pensieve
constructor then normalizes the host with an `ssh://` prefix, as its own
initializer prescribes); and it raises a configuration error whenever the
YAML fails to parse, the `stores` key is missing from the parsed mapping, an
entry lacks a `type` key, the type is unknown, or an entry's remaining
parameters do not match the chosen variant's constructor. -/
theorem claim_C8 (env : Option String) :
    (∀ (entries : List (String × Json)) (d : String × Json → DotClient),
      (∀ e ∈ entries, loadClientFromStoreConfig e.1 e.2 env = .ok (d e)) →
      loadStores env entries = .ok (entries.map fun e => (e.1, d e)))
    ∧ (∀ (kvs entries : List (String × Json)),
      lookupPairs kvs "stores" = some (.obj entries) →
      load (some (.obj kvs)) env = loadStores env entries)
    ∧ load none env = .error (.str "Problem decoding the YAML dotfile.")
    ∧ (∀ kvs, lookupPairs kvs "stores" = none →
      load (some (.obj kvs)) env
        = .error (.str "Invalid dotfile. Missing \"stores\" key."))
    ∧ (∀ store params, lookupPairs params "type" = none →
      loadClientFromStoreConfig store (.obj params) env
        = .error (.str (invalidStoreMsg store ++ "Missing a \"type\" key.")))
    ∧ (∀ store params tn, lookupPairs params "type" = some (.str tn) →
      tn ≠ "github" → tn ≠ "pensieve" →
      loadClientFromStoreConfig store (.obj params) env
        = .error (.str (invalidStoreMsg store ++ "Unknown client type " ++ tn ++ ".")))
    ∧ (∀ store params, lookupPairs params "type" = some (.str "github") →
      storeParamKeys (dropTypeKey params) ≠ ["token", "user"] →
      loadClientFromStoreConfig store (.obj params) env
        = .error (.str (invalidStoreMsg store ++ "Missing or unknown parameters.")))
    ∧ (∀ store params, lookupPairs params "type" = some (.str "pensieve") →
      storeParamKeys (dropTypeKey params) ≠ ["agent", "host", "path"] →
      loadClientFromStoreConfig store (.obj params) env
        = .error (.str (invalidStoreMsg store ++ "Missing or unknown parameters.")))
    ∧ (∀ store (u t : Json),
      loadClientFromStoreConfig store
        (.obj [("type", .str "github"), ("user", u), ("token", t)]) env
        = .ok (.github u t))
    ∧ (∀ store (h : String) (p a : Json),
      loadClientFromStoreConfig store
        (.obj [("type", .str "pensieve"), ("host", .str h), ("path", p), ("agent", a)])
        none
        = .ok (.pensieve
            (.str (if strStartsWith h "ssh://" then h else "ssh://" ++ h)) p a)) := by
  refine ⟨?_, ?_, rfl, ?_, ?_, ?_, ?_, ?_, ?_, ?_⟩
  · intro entries d h
    induction entries with
    | nil => rfl
    | cons e rest ih =>
      have he := h e (by simp)
      have hrest := ih fun x hx => h x (by simp [hx])
      obtain ⟨store, cfg⟩ := e
      simp [loadStores, he, hrest]
  · intro kvs entries h
    simp [load, h]
  · intro kvs h
    simp [load, h]
  · intro store params h
    simp [loadClientFromStoreConfig, h]
  · intro store params tn h h1 h2
    simp [loadClientFromStoreConfig, h, h1, h2]
  · intro store params h hk
    simp [loadClientFromStoreConfig, h, githubFromKwargs, hk]
  · intro store params h hk
    simp [loadClientFromStoreConfig, h, pensieveFromKwargs, hk]
  · intro store u t
    rfl
  · intro store h p a
    rfl

/-- C8 witness: the theorem applied to the example dotfile of the repository's
unit tests — two stores, one per variant, fields taken verbatim from the
YAML (the pensieve host gains its `ssh://` prefix). -/
theorem claim_C8_witness :
    load (some (.obj [("stores", .obj
        [("home", .obj [("type", .str "pensieve"),
          ("host", .str "tester@0.0.0.0:1234"),
          ("path", .str "/home/tester/pensieve"),
          ("agent", .str "/home/tester/env/bin/_pensieve-agent")]),
        ("github", .obj [("type", .str "github"),
          ("user", .str "pensieve-test-user"),
          ("token", .str "abcdef")])])])) none
      = .ok [("home", .pensieve (.str "ssh://tester@0.0.0.0:1234")
            (.str "/home/tester/pensieve")
            (.str "/home/tester/env/bin/_pensieve-agent")),
          ("github", .github (.str "pensieve-test-user") (.str "abcdef"))] := by
  have h := claim_C8 none
  refine (h.2.1 _ _ (by rfl)).trans ?_
  refine (h.1 _ (fun e => if e.1 = "home"
    then DotClient.pensieve (.str "ssh://tester@0.0.0.0:1234")
      (.str "/home/tester/pensieve") (.str "/home/tester/env/bin/_pensieve-agent")
    else DotClient.github (.str "pensieve-test-user") (.str "abcdef")) ?_).trans (by rfl)
  intro e he
  simp only [List.mem_cons, List.not_mem_nil, or_false] at he
  rcases he with rfl | rfl <;> rfl

/-! ## Claim C10: cache update frame property -/

theorem lookupPairs_map_set (kvs : List (String × Json)) (key : String) (v : Json)
    (h : (kvs.any fun kv => kv.1 = key) = true) :
    lookupPairs (kvs.map fun kv => if kv.1 = key then (key, v) else kv) key = some v := by
  induction kvs with
  | nil => simp at h
  | cons kv rest ih =>
    by_cases hk : kv.1 = key
    · simp [lookupPairs, hk]
    · have h2 : (rest.any fun kv => kv.1 = key) = true := by
        simpa [List.any_cons, hk] using h
      simp [lookupPairs, hk, ih h2]

theorem lookupPairs_append_same (kvs : List (String × Json)) (key : String) (v : Json)
    (h : (kvs.any fun kv => kv.1 = key) = false) :
    lookupPairs (kvs ++ [(key, v)]) key = some v := by
  induction kvs with
  | nil => simp [lookupPairs]
  | cons kv rest ih =>
    simp only [List.any_cons, Bool.or_eq_false_iff] at h
    have hk : ¬kv.1 = key := by simpa using h.1
    simp [lookupPairs, hk, ih h.2]

theorem lookupPairs_map_set_other (kvs : List (String × Json)) (store : String)
    (v : Json) (key : String) (hne : key ≠ store) :
    lookupPairs (kvs.map fun kv => if kv.1 = store then (store, v) else kv) key
      = lookupPairs kvs key := by
  induction kvs with
  | nil => rfl
  | cons kv rest ih =>
    by_cases hk : kv.1 = store
    · have hsk : ¬store = key := fun hh => hne hh.symm
      have hkk : ¬kv.1 = key := by rw [hk]; exact hsk
      simp [lookupPairs, hk, hsk, hkk, ih]
    · simp only [List.map_cons, if_neg hk]
      by_cases hkey : kv.1 = key
      · simp [lookupPairs, hkey]
      · simp [lookupPairs, hkey, ih]

theorem lookupPairs_append_single_other (kvs : List (String × Json)) (store : String)
    (v : Json) (key : String) (hne : key ≠ store) :
    lookupPairs (kvs ++ [(store, v)]) key = lookupPairs kvs key := by
  induction kvs with
  | nil =>
    have hsk : ¬store = key := fun hh => hne hh.symm
    simp [lookupPairs, hsk]
  | cons kv rest ih =>
    by_cases hkey : kv.1 = key
    · simp [lookupPairs, hkey]
    · simp [lookupPairs, hkey, ih]

/-- C10: the cache update after listing a store replaces only that store's
entry in the JSON cache mapping: the updated mapping binds the store to the
serialized repository list, every other key's binding is preserved
unchanged, and a missing cache file is treated as an empty mapping. -/
theorem claim_C10 (store : String) (repos : List RepositoryMetadata) :
    updateCache store repos none
      = .ok (.obj [(store, .arr (repos.map repoAsDict))])
    ∧ (∀ kvs, updateCache store repos (some (.obj kvs))
        = .ok (.obj (dictSet kvs store (.arr (repos.map repoAsDict)))))
    ∧ (∀ kvs, lookupPairs (dictSet kvs store (.arr (repos.map repoAsDict))) store
        = some (.arr (repos.map repoAsDict)))
    ∧ (∀ kvs key, key ≠ store →
        lookupPairs (dictSet kvs store (.arr (repos.map repoAsDict))) key
          = lookupPairs kvs key) := by
  refine ⟨rfl, fun kvs => rfl, ?_, ?_⟩
  · intro kvs
    unfold dictSet
    cases h : (kvs.any fun kv => kv.1 = store) with
    | true => simpa using lookupPairs_map_set kvs store _ h
    | false => simpa using lookupPairs_append_same kvs store _ h
  · intro kvs key hne
    unfold dictSet
    cases h : (kvs.any fun kv => kv.1 = store) with
    | true => simpa using lookupPairs_map_set_other kvs store _ key hne
    | false => simpa using lookupPairs_append_single_other kvs store _ key hne

/-- C10 witness: the theorem applied to a three-store cache — the middle
store's entry is replaced, a neighbouring store's entry is untouched. -/
theorem claim_C10_witness :
    updateCache "s1" [⟨"r", .null, ["t"]⟩]
        (some (.obj [("s0", .str "old0"), ("s1", .str "old1"), ("s2", .str "old2")]))
      = .ok (.obj [("s0", .str "old0"),
          ("s1", .arr [.obj [("name", .str "r"), ("description", .null),
            ("topics", .arr [.str "t"])]]),
          ("s2", .str "old2")])
    ∧ lookupPairs (dictSet [("s0", .str "old0"), ("s1", .str "old1"),
          ("s2", .str "old2")] "s1"
          (.arr (List.map repoAsDict [⟨"r", .null, ["t"]⟩]))) "s0"
      = some (.str "old0") := by
  constructor
  · exact ((claim_C10 "s1" [⟨"r", .null, ["t"]⟩]).2.1 _).trans (by rfl)
  · exact (claim_C10 "s1" [⟨"r", .null, ["t"]⟩]).2.2.2 _ "s0" (by decide)

end Pensieve
